import Mathlib

/-!
Verification of the inventory search/edit core of the repository
(`search_inventory.py`, `sheets.py`, `dash_inventory.py`).

The Python functions are shallowly embedded as executable Lean
definitions, and the behavioural properties of the specification are
settled as theorems about those definitions.  Cells are modelled by a
`Cell` type with an explicit missing marker (pandas `NaN`); the
`astype(str)` conversion applied by the code before matching renders a
missing cell as the string "nan", exactly as pandas does.  Character
classification (`\w` of the `re` module, lower-casing) is modelled at
ASCII precision, which covers every identifier and query the claims
exercise.
-/

/-! ## Model of `re.escape` and of the regex fragment it produces -/

/-- Characters escaped by `re.escape` (CPython 3.7+ escapes exactly the
bytes in its special-character map; every other character is kept). -/
def reSpecial (c : Char) : Bool :=
  ['(', ')', '[', ']', '\x7b', '\x7d', '?', '*', '+', '-', '|', '^', '$',
   '\\', '.', '&', '~', '#', ' ', '\t', '\n', '\r', '\x0b', '\x0c'].contains c

/-- Model of `re.escape`: prefix every special character with a backslash. -/
def reEscape : List Char → List Char
  | [] => []
  | c :: rest => if reSpecial c then '\\' :: c :: reEscape rest else c :: reEscape rest

/-- Tokens of the quantifier-free regex fragment reaching the matcher:
a literal character or the metacharacter dot (any single character). -/
inductive RTok where
  | lit (c : Char)
  | anyChar
deriving Repr, DecidableEq

/-- Parse a pattern string into tokens: a backslash escapes the next
character into a literal, an unescaped dot is the wildcard, unescaped
parentheses are grouping and are transparent to matching, and every
other character is a literal.  Patterns produced by `reEscape` never
contain an unescaped metacharacter, so this fragment models the `re`
module faithfully on all patterns the code ever builds. -/
def parsePat : List Char → List RTok
  | [] => []
  | c :: rest =>
    if c = '\\' then
      match rest with
      | [] => []
      | d :: rest2 => RTok.lit d :: parsePat rest2
    else if c = '.' then RTok.anyChar :: parsePat rest
    else if c = '(' then parsePat rest
    else if c = ')' then parsePat rest
    else RTok.lit c :: parsePat rest

/-- Match a token sequence against a prefix of the text. -/
def rmatchAt : List RTok → List Char → Bool
  | [], _ => true
  | RTok.lit c :: ts, d :: ds => c == d && rmatchAt ts ds
  | RTok.anyChar :: ts, _ :: ds => rmatchAt ts ds
  | _ :: _, [] => false

/-- Model of `re.search` semantics used by `Series.str.contains`: the
token sequence may match starting at any position of the text. -/
def rsearch (ts : List RTok) : List Char → Bool
  | [] => rmatchAt ts []
  | c :: rest => rmatchAt ts (c :: rest) || rsearch ts rest

/-- Literal substring test: `q` occurs contiguously somewhere in the text. -/
def containsSub (q : List Char) : List Char → Bool
  | [] => q.isPrefixOf []
  | c :: rest => q.isPrefixOf (c :: rest) || containsSub q rest

/-- ASCII lower-casing, modelling `case=False` of `str.contains`. -/
def lowerL (cs : List Char) : List Char := cs.map Char.toLower

/-- Model of `col.astype(str).str.contains(re.escape(query), case=False,
na=False, regex=True)` applied to one already-stringified cell. -/
def pyContains (q s : List Char) : Bool :=
  rsearch (parsePat (reEscape (lowerL q))) (lowerL s)

theorem parsePat_esc (c : Char) (l : List Char) :
    parsePat ('\\' :: c :: l) = RTok.lit c :: parsePat l := rfl

theorem parsePat_plain (c : Char) (l : List Char) (hb : c ≠ '\\') (hd : c ≠ '.')
    (hp : c ≠ '(') (hq : c ≠ ')') :
    parsePat (c :: l) = RTok.lit c :: parsePat l := by
  rw [parsePat.eq_def]
  simp only [if_neg hb, if_neg hd, if_neg hp, if_neg hq]

theorem parsePat_reEscape (q : List Char) : parsePat (reEscape q) = q.map RTok.lit := by
  induction q with
  | nil => rfl
  | cons c rest ih =>
    have hre : reEscape (c :: rest) =
        if reSpecial c then '\\' :: c :: reEscape rest else c :: reEscape rest := rfl
    by_cases h : reSpecial c = true
    · rw [hre, if_pos h, parsePat_esc, ih, List.map_cons]
    · have hb : c ≠ '\\' := by rintro rfl; exact h (by decide)
      have hd : c ≠ '.' := by rintro rfl; exact h (by decide)
      have hp : c ≠ '(' := by rintro rfl; exact h (by decide)
      have hq : c ≠ ')' := by rintro rfl; exact h (by decide)
      rw [hre, if_neg h, parsePat_plain c _ hb hd hp hq, ih, List.map_cons]

theorem rmatchAt_lits (q : List Char) : ∀ s : List Char,
    rmatchAt (q.map RTok.lit) s = q.isPrefixOf s := by
  induction q with
  | nil => intro s; simp [rmatchAt, List.isPrefixOf]
  | cons c cs ih =>
    intro s
    cases s with
    | nil => simp [rmatchAt, List.isPrefixOf]
    | cons d ds => simp [rmatchAt, List.isPrefixOf, ih]

theorem rsearch_lits (q : List Char) : ∀ s : List Char,
    rsearch (q.map RTok.lit) s = containsSub q s := by
  intro s
  induction s with
  | nil => simp [rsearch, containsSub, rmatchAt_lits]
  | cons c rest ih => simp [rsearch, containsSub, rmatchAt_lits, ih]

/-- The escaped pattern matches exactly where the raw query occurs as a
literal substring: `re.escape` reduces regex search to substring search. -/
theorem pyContains_eq_containsSub (q s : List Char) :
    pyContains q s = containsSub (lowerL q) (lowerL s) := by
  unfold pyContains
  rw [parsePat_reEscape, rsearch_lits]

/-! ## Data model: cells, tables, filtered views -/

/-- One cell of the loaded DataFrame: a string value or the pandas
missing marker `NaN`.  Numeric cells are represented by the string
`astype(str)` would produce for them, which is all the matching code
ever observes. -/
inductive Cell where
  | str (s : String)
  | missing
deriving Repr, DecidableEq

/-- Textual rendering produced by `astype(str)`: pandas stringifies the
float `NaN` of a missing cell as "nan" before `str.contains` runs
(the later `na=False` flag is inert because no `NaN` survives the cast;
`validate_booleans` in the same file also treats "nan" as the rendering
of a blank cell). -/
def Cell.text : Cell → String
  | Cell.str s => s
  | Cell.missing => "nan"

/-- One cell test of the filter: `astype(str).str.contains(re.escape(q),
case=False, na=False, regex=True)`. -/
def cellMatches (q : List Char) (c : Cell) : Bool :=
  pyContains q c.text.data

/-- The in-memory table: ordered column names and ordered rows, a row
being the list of its cells in column order (`pd.DataFrame`). -/
structure Table where
  cols : List String
  rows : List (List Cell)
deriving Repr, DecidableEq

/-- Well-formedness from the data model: every row has exactly one cell
per column. -/
def Table.wf (t : Table) : Prop := ∀ r ∈ t.rows, r.length = t.cols.length

/-- A filtered view: the rows returned by `df[mask]` together with the
original (0-based) index label each row keeps in pandas. -/
structure View where
  cols : List String
  rows : List (Nat × List Cell)
deriving Repr, DecidableEq

/-- Column resolution through `col_map = {c.lower(): c for c in df.columns}`:
a case-insensitive match in which a later column wins when two column
names collide after lower-casing (dict construction overwrites). -/
def resolveCol (cols : List String) (key : List Char) : Option Nat :=
  match cols with
  | [] => none
  | c :: rest =>
    match resolveCol rest key with
    | some j => some (j + 1)
    | none => if lowerL c.data = key then some 0 else none

/-- Cell of a row at column position `j`; well-formed tables never read
past the end of a row. -/
def getCell (row : List Cell) (j : Nat) : Cell := row.getD j Cell.missing

/-- Row test of the unrestricted search: some cell of the row matches
(`mask.any(axis=1)`). -/
def rowAnyMatch (q : List Char) (row : List Cell) : Bool :=
  row.any (cellMatches q)

/-- Outcome of `search`: a returned view, or termination of the process
by `sys.exit` with an error message (the original message wraps the
column name in single quotation marks). -/
inductive SearchResult where
  | ok (v : View)
  | processExit (msg : String)
deriving Repr, DecidableEq

/-- Embedding of `search(df, query, field)` from `search_inventory.py`.
The query is regex-escaped; a truthy `field` (a present, non-empty
string) is resolved case-insensitively and only that column is tested,
with `sys.exit` when it resolves to nothing; otherwise every cell of a
row is tested.  `df[mask]` keeps matching rows in order with their
original index labels, modelled by filtering the enumerated rows. -/
def search (t : Table) (query : String) (field : Option String) : SearchResult :=
  let q := query.data
  match field with
  | some f =>
    if f = "" then
      SearchResult.ok ⟨t.cols, t.rows.enum.filter (fun p => rowAnyMatch q p.2)⟩
    else
      match resolveCol t.cols (lowerL f.data) with
      | none => SearchResult.processExit ("Error: column " ++ f ++ " not found in sheet.")
      | some j =>
        SearchResult.ok ⟨t.cols, t.rows.enum.filter (fun p => cellMatches q (getCell p.2 j))⟩
  | none => SearchResult.ok ⟨t.cols, t.rows.enum.filter (fun p => rowAnyMatch q p.2)⟩

/-- Every successful search is a filter of the enumerated rows: the view
keeps each surviving row paired with its original position. -/
theorem search_ok_shape (t : Table) (query : String) (field : Option String) (v : View)
    (h : search t query field = SearchResult.ok v) :
    ∃ pr : List Cell → Bool, v = ⟨t.cols, t.rows.enum.filter (fun p => pr p.2)⟩ := by
  cases field with
  | none =>
    refine ⟨rowAnyMatch query.data, ?_⟩
    simpa [search] using h.symm
  | some f =>
    by_cases hf : f = ""
    · refine ⟨rowAnyMatch query.data, ?_⟩
      simp only [search, if_pos hf] at h
      injection h with h2
      exact h2.symm
    · cases hj : resolveCol t.cols (lowerL f.data) with
      | none =>
        exfalso
        simp [search, if_neg hf, hj] at h
      | some j =>
        refine ⟨fun row => cellMatches query.data (getCell row j), ?_⟩
        simp only [search, if_neg hf, hj] at h
        injection h with h2
        exact h2.symm

/-! ## General facts about the filtered enumeration -/

theorem rsearch_nil : ∀ s : List Char, rsearch [] s = true
  | [] => rfl
  | _ :: _ => by simp [rsearch, rmatchAt]

/-- Every cell matches the empty query: the empty pattern is found at
the first position of any text. -/
theorem cellMatches_nil (c : Cell) : cellMatches [] c = true := by
  have h : parsePat (reEscape (lowerL [])) = [] := rfl
  simp only [cellMatches, pyContains, h, rsearch_nil]

theorem pairwise_fst_lt_enumFrom {α : Type _} (n : Nat) (l : List α) :
    (l.enumFrom n).Pairwise (fun a b => a.1 < b.1) := by
  induction l generalizing n with
  | nil => exact List.Pairwise.nil
  | cons x xs ih =>
    rw [List.enumFrom_cons]
    refine List.Pairwise.cons (fun p hp => ?_) (ih (n + 1))
    exact Nat.lt_of_lt_of_le (Nat.lt_succ_self n) (List.le_fst_of_mem_enumFrom hp)

/-! ## Demonstration tables (concrete instances used by the claims) -/

/-- The example table of the specification, section 8. -/
def demo2 : Table :=
  ⟨["name", "qty"], [[Cell.str "Widget", Cell.str "5"], [Cell.str "Gadget", Cell.str "0"]]⟩

/-- A table whose single cell is missing (a blank spreadsheet cell that
pandas loads as `NaN`). -/
def demoMissing : Table := ⟨["note"], [[Cell.missing]]⟩

/-- A table with one row containing a space and one row without. -/
def demoWs : Table := ⟨["name"], [[Cell.str "a b"], [Cell.str "ab"]]⟩

/-! ## Claims about the search engine -/

/-- C1: write-back position mapping.  For every table, query and
optional column restriction, whenever `search` returns a view, the pair
stored at any view position `k` carries an original index `p` with
`t.rows[p] = ` the view row at `k`; the edit path of `_save_row`, which
takes `p = current_view.index[selected_rows[0]]` and hands that position
to `write_row`, therefore addresses exactly the row shown at `k`. -/
theorem writeback_position_mapping (t : Table) (query : String) (field : Option String)
    (v : View) (hv : search t query field = SearchResult.ok v)
    (k p : Nat) (r : List Cell) (hk : v.rows[k]? = some (p, r)) :
    t.rows[p]? = some r := by
  obtain ⟨pr, rfl⟩ := search_ok_shape t query field v hv
  have hmem : (p, r) ∈ t.rows.enum.filter (fun q => pr q.2) := List.getElem?_mem hk
  exact List.mk_mem_enum_iff_getElem?.1 (List.mem_of_mem_filter hmem)

theorem writeback_position_mapping_check :
    demo2.rows[0]? = some [Cell.str "Widget", Cell.str "5"] :=
  writeback_position_mapping demo2 "wid" none
    ⟨demo2.cols, [(0, [Cell.str "Widget", Cell.str "5"])]⟩ (by decide)
    0 0 [Cell.str "Widget", Cell.str "5"] (by decide)

/-- C2: order preservation.  Every view produced by `search` lists a
subsequence of the table rows (order kept, no duplicates, no
insertions), and the carried original indices are strictly increasing. -/
theorem search_order_preserving (t : Table) (query : String) (field : Option String)
    (v : View) (hv : search t query field = SearchResult.ok v) :
    (v.rows.map Prod.snd).Sublist t.rows ∧ (v.rows.map Prod.fst).Pairwise (· < ·) := by
  obtain ⟨pr, rfl⟩ := search_ok_shape t query field v hv
  constructor
  · have h1 : List.Sublist (t.rows.enum.filter (fun q => pr q.2)) t.rows.enum :=
      List.filter_sublist _
    have h2 := h1.map Prod.snd
    rwa [List.enum_eq_enumFrom, List.enumFrom_map_snd] at h2
  · have hp : (t.rows.enum).Pairwise (fun a b => a.1 < b.1) :=
      pairwise_fst_lt_enumFrom 0 t.rows
    exact List.pairwise_map.2 (hp.filter (fun q => pr q.2))

theorem search_order_preserving_check :
    ([(0, [Cell.str "Widget", Cell.str "5"])].map Prod.snd).Sublist demo2.rows ∧
    ([((0 : Nat), [Cell.str "Widget", Cell.str "5"])].map Prod.fst).Pairwise (· < ·) :=
  search_order_preserving demo2 "wid" none
    ⟨demo2.cols, [(0, [Cell.str "Widget", Cell.str "5"])]⟩ (by decide)

/-- C7: literal (regex-escaped) matching.  The cell test built from
`re.escape` is exactly the case-insensitive literal substring test, for
every query and cell text; in particular the query A(1) matches a cell
literally containing A(1) and does not match a cell containing A1. -/
theorem literal_escaped_matching :
    (∀ q s : List Char, pyContains q s = containsSub (lowerL q) (lowerL s)) ∧
    cellMatches "A(1)".data (Cell.str "xA(1)y") = true ∧
    cellMatches "A(1)".data (Cell.str "A1") = false :=
  ⟨pyContains_eq_containsSub, by decide, by decide⟩

/-- C8: empty-query identity.  On a well-formed table with at least one
column, `search(T, "")` returns every row in order, each carrying its
own index: the identity view.  (The empty pattern matches every cell,
so the mask is all-true and the filter keeps the whole enumeration.) -/
theorem empty_query_identity (t : Table) (hwf : t.wf) (hc : t.cols ≠ []) :
    search t "" none = SearchResult.ok ⟨t.cols, t.rows.enum⟩ := by
  have hq : ("" : String).data = [] := rfl
  have hall : ∀ p ∈ t.rows.enum, rowAnyMatch [] p.2 = true := by
    intro p hp
    have hmem : p.2 ∈ t.rows := List.snd_mem_of_mem_enum hp
    have hlen : p.2.length = t.cols.length := hwf p.2 hmem
    cases h2 : p.2 with
    | nil =>
      exfalso
      rw [h2] at hlen
      exact hc (List.eq_nil_of_length_eq_zero hlen.symm)
    | cons c cs =>
      simp [rowAnyMatch, cellMatches_nil]
  simp only [search, hq]
  congr 1
  rw [View.mk.injEq]
  exact ⟨rfl, List.filter_eq_self.2 hall⟩

theorem empty_query_identity_check :
    search demo2 "" none = SearchResult.ok ⟨demo2.cols, demo2.rows.enum⟩ :=
  empty_query_identity demo2 (by unfold Table.wf; decide) (by decide)

/-- C5 (code bug witness): a missing cell, rendered as the string nan by
`astype(str)`, does satisfy the substring test for the non-empty query
nan, so `search` returns the row — contradicting both the specification
and the intent of the `na=False` argument in the same call. -/
theorem missing_cell_matches_nan_query :
    search demoMissing "nan" none =
      SearchResult.ok ⟨["note"], [(0, [Cell.missing])]⟩ ∧
    cellMatches "nan".data Cell.missing = true := by
  exact ⟨by decide, by decide⟩

/-- C6 counterexample: a whitespace-only query is not treated as empty.
On a table whose rows are a b and ab, searching for a single space
returns only the first row, not the full table. -/
theorem whitespace_query_claim_false :
    search demoWs " " none = SearchResult.ok ⟨["name"], [(0, [Cell.str "a b"])]⟩ ∧
    search demoWs " " none ≠ SearchResult.ok ⟨demoWs.cols, demoWs.rows.enum⟩ :=
  ⟨by decide, by decide⟩

/-- Whitespace as understood by `str.strip()` and `str.isspace()`
(ASCII part). -/
def isPyWhitespace (c : Char) : Bool :=
  c = ' ' || c = '\t' || c = '\n' || c = '\r' || c = '\x0b' || c = '\x0c'

/-- Written from the amended claim's words, to be compared with
`search`: the same search, except that each cell is tested with the
plain case-insensitive literal substring test for the query itself —
an ordinary literal filter, with no whitespace-is-empty rule. -/
def searchLit (t : Table) (query : String) (field : Option String) : SearchResult :=
  let test : Cell → Bool := fun c => containsSub (lowerL query.data) (lowerL c.text.data)
  match field with
  | some f =>
    if f = "" then
      SearchResult.ok ⟨t.cols, t.rows.enum.filter (fun p => p.2.any test)⟩
    else
      match resolveCol t.cols (lowerL f.data) with
      | none => SearchResult.processExit ("Error: column " ++ f ++ " not found in sheet.")
      | some j =>
        SearchResult.ok ⟨t.cols, t.rows.enum.filter (fun p => test (getCell p.2 j))⟩
  | none => SearchResult.ok ⟨t.cols, t.rows.enum.filter (fun p => p.2.any test)⟩

/-- C6 amended: for every table, every non-empty query consisting only
of whitespace characters, and every optional column restriction,
`search` treats the query as an ordinary literal query — it coincides
with the literal substring filter applied with the whitespace string
itself, keeping exactly the rows whose tested stringified cells contain
that whitespace.  Only the genuinely empty string is short-circuited by
the callers (falsy check in the dash layer; the CLI strips input before
searching). -/
theorem whitespace_query_literal_filter (t : Table) (q : String) (field : Option String)
    (_hq : q ≠ "") (_hws : ∀ c ∈ q.data, isPyWhitespace c = true) :
    search t q field = searchLit t q field := by
  have hfun : cellMatches q.data =
      fun c => containsSub (lowerL q.data) (lowerL c.text.data) := by
    funext c
    rw [cellMatches, pyContains_eq_containsSub]
  cases field with
  | none => simp [search, searchLit, rowAnyMatch, hfun]
  | some f =>
    by_cases hf : f = ""
    · simp [search, searchLit, hf, rowAnyMatch, hfun]
    · cases hj : resolveCol t.cols (lowerL f.data) with
      | none => simp [search, searchLit, hf, hj]
      | some j => simp [search, searchLit, hf, hj, hfun]

theorem whitespace_query_literal_filter_check :
    search demoWs " " none = searchLit demoWs " " none ∧
    search demo2 "\t " (some "Name") = searchLit demo2 "\t " (some "Name") :=
  ⟨whitespace_query_literal_filter demoWs " " none (by decide) (by decide),
   whitespace_query_literal_filter demo2 "\t " (some "Name") (by decide) (by decide)⟩

/-- C4 counterexample: with an unknown column restriction, `search` does
not return a recoverable typed failure — it reaches `sys.exit`, i.e.
process termination with an error message. -/
theorem unknown_column_claim_false :
    search demo2 "x" (some "nosuch") =
      SearchResult.processExit "Error: column nosuch not found in sheet." := by
  decide

/-- C4 amended: for every table and every non-empty column name that
resolves against no column case-insensitively, `search` ends in the
`sys.exit` outcome carrying the column-not-found message (the empty
column name is falsy in Python and selects the unrestricted search
instead). -/
theorem unknown_column_process_termination (t : Table) (query f : String)
    (hf : f ≠ "") (hr : resolveCol t.cols (lowerL f.data) = none) :
    search t query (some f) =
      SearchResult.processExit ("Error: column " ++ f ++ " not found in sheet.") := by
  simp [search, hf, hr]

theorem unknown_column_process_termination_check :
    search demo2 "x" (some "qty2") =
      SearchResult.processExit ("Error: column " ++ "qty2" ++ " not found in sheet.") :=
  unknown_column_process_termination demo2 "x" "qty2" (by decide) (by decide)

/-! ## Model of the sheets adapter (`sheets.py`) -/

/-- ASCII word characters of the regex class backslash-w, together with
the hyphen admitted by the character class of `_sheet_from_url`. -/
def idChar (c : Char) : Bool := c.isAlphanum || c = '_' || c = '-'

/-- Embedding of `re.search` applied to the pattern /d/([\w-]+)/ of
`_sheet_from_url` and `get_df`: find the leftmost occurrence of /d/
followed by a non-empty run of id characters terminated by a further
slash, and return the id run.  Greedy repetition with the mandatory
closing slash means the maximal run must be followed by a slash. -/
def findSheetId : List Char → Option String
  | [] => none
  | c :: rest =>
    match c, rest with
    | '/', 'd' :: '/' :: tail =>
      let run := tail.takeWhile idChar
      if run ≠ [] ∧ (tail.drop run.length).head? = some '/' then some (String.mk run)
      else findSheetId rest
    | _, _ => findSheetId rest

/-- Outcome of a remote write call. -/
inductive WriteOutcome where
  | invalidUrl
  | invalidRange
  | okWritten
deriving Repr, DecidableEq

/-- Overwrite the 0-based physical row `n` of the sheet, extending the
grid with empty rows when the target lies past the current end (the
spreadsheet grid is larger than its populated part, so such writes
succeed remotely). -/
def setRow0 : List (List String) → Nat → List String → List (List String)
  | _ :: rest, 0, vals => vals :: rest
  | [], 0, vals => [vals]
  | [], n + 1, vals => [] :: setRow0 [] n vals
  | r :: rest, n + 1, vals => r :: setRow0 rest n vals

/-- Embedding of `update_row(url, row_idx, row_values)`: resolve the
sheet id from the URL (raising ValueError when absent, before any
remote call), then write the whole row at the 1-based physical row
`row_idx + 2` through the range A-notation string; a non-positive
physical row number is an invalid range rejected by the API.  The sheet
is returned unchanged alongside any failure.  There is no comparison of
`row_idx` against the row count anywhere. -/
def update_row (url : String) (sheet : List (List String)) (row_idx : Int)
    (vals : List String) : (List (List String)) × WriteOutcome :=
  match findSheetId url.data with
  | none => (sheet, WriteOutcome.invalidUrl)
  | some _ =>
    let rowNum : Int := row_idx + 2
    if rowNum < 1 then (sheet, WriteOutcome.invalidRange)
    else (setRow0 sheet (rowNum.toNat - 1) vals, WriteOutcome.okWritten)

/-- Embedding of `append_row(url, row_values)`: resolve the sheet id
(ValueError when absent, before any remote call), then add the row at
the bottom. -/
def append_row (url : String) (sheet : List (List String)) (vals : List String) :
    (List (List String)) × WriteOutcome :=
  match findSheetId url.data with
  | none => (sheet, WriteOutcome.invalidUrl)
  | some _ => (sheet ++ [vals], WriteOutcome.okWritten)

/-- A URL of the shape the default configuration uses. -/
def demoUrl : String := "https://docs.google.com/spreadsheets/d/abc123/edit"

/-- A remote sheet holding a header row and two data rows. -/
def demoSheet : List (List String) :=
  [["name", "qty"], ["Widget", "5"], ["Gadget", "0"]]

/-! ## Claims about the write path -/

/-- C3 counterexample: `update_row` contains no bounds check.  On a
sheet with two data rows (row count 2), the call at position 2 — which
the claim requires to fail with PositionOutOfRange — succeeds and
writes one physical row past the data; the call at the negative
position -1 also succeeds (it overwrites the header row). -/
theorem write_row_bounds_claim_false :
    (update_row demoUrl demoSheet 2 ["x", "y"]).2 = WriteOutcome.okWritten ∧
    update_row demoUrl demoSheet (-1) ["x", "y"] =
      ([["x", "y"], ["Widget", "5"], ["Gadget", "0"]], WriteOutcome.okWritten) :=
  ⟨by decide, by decide⟩

/-- C3 amended: `update_row` never compares the position against the
row count.  With a resolvable URL, every position down to -1 succeeds,
writing physical row `position + 2` (so row count minus one hits the
last data row, the row count itself writes one past the data, and -1
overwrites the header); only positions below -1 fail, as an invalid
range, and no PositionOutOfRange failure exists. -/
theorem update_row_no_bounds_check (url : String) (sheet : List (List String))
    (row_idx : Int) (vals : List String) (hid : (findSheetId url.data).isSome = true) :
    update_row url sheet row_idx vals =
      if -1 ≤ row_idx then
        (setRow0 sheet ((row_idx + 2).toNat - 1) vals, WriteOutcome.okWritten)
      else (sheet, WriteOutcome.invalidRange) := by
  cases h : findSheetId url.data with
  | none => rw [h] at hid; exact absurd hid (by simp)
  | some s =>
    by_cases hle : -1 ≤ row_idx
    · rw [if_pos hle]
      simp only [update_row, h]
      rw [if_neg (show ¬(row_idx + 2 < 1) by omega)]
    · rw [if_neg hle]
      simp only [update_row, h]
      rw [if_pos (show row_idx + 2 < 1 by omega)]

theorem update_row_no_bounds_check_check :
    update_row demoUrl demoSheet 1 ["x", "y"] =
      if -1 ≤ (1 : Int) then
        (setRow0 demoSheet (((1 : Int) + 2).toNat - 1) ["x", "y"], WriteOutcome.okWritten)
      else (demoSheet, WriteOutcome.invalidRange) :=
  update_row_no_bounds_check demoUrl demoSheet 1 ["x", "y"] (by decide)

/-- C10: a location string without a /d/<sheet-id>/ segment makes both
write operations raise ValueError while resolving the sheet handle,
before any remote call, and the remote table is unchanged. -/
theorem invalid_url_no_write (url : String) (sheet : List (List String))
    (row_idx : Int) (vals : List String) (hid : findSheetId url.data = none) :
    update_row url sheet row_idx vals = (sheet, WriteOutcome.invalidUrl) ∧
    append_row url sheet vals = (sheet, WriteOutcome.invalidUrl) := by
  constructor
  · simp [update_row, hid]
  · simp [append_row, hid]

theorem invalid_url_no_write_check :
    update_row "http://example.com/x" demoSheet 0 ["x"] =
        (demoSheet, WriteOutcome.invalidUrl) ∧
      append_row "http://example.com/x" demoSheet ["x"] =
        (demoSheet, WriteOutcome.invalidUrl) :=
  invalid_url_no_write "http://example.com/x" demoSheet 0 ["x"] (by decide)

/-! ## Model of the add-new-item callback (`upload_row` in `dash_inventory.py`) -/

/-- Outcome of the add-new-item callback, one constructor per distinct
return path of the Python function (transport/auth failures aside). -/
inductive UploadOutcome where
  | missingRequired
  | invalidUrl
  | validationError (field : String)
  | okUploaded
deriving Repr, DecidableEq

/-- Python truthiness of an optional string: None and the empty string
are falsy. -/
def strTruthy : Option String → Bool
  | none => false
  | some s => !(s == "")

/-- Model of `str.strip()`: drop whitespace from both ends. -/
def stripL (cs : List Char) : List Char :=
  ((cs.dropWhile isPyWhitespace).reverse.dropWhile isPyWhitespace).reverse

/-- Normalisation of a yes/no dropdown value: `(val or "").strip().lower()`. -/
def normBool (v : Option String) : String := String.mk (lowerL (stripL (v.getD "").data))

/-- The recognised values of a yes/no field; a blank field is accepted. -/
def allowedBool (s : String) : Bool := s == "yes" || s == "no" || s == ""

/-- Embedding of `upload_row`: require name and qr to be truthy, resolve
the sheet id from the URL, normalise and validate the four yes/no
fields in dictionary order returning on the first violation, and only
then append the assembled row remotely.  Each failure path leaves the
sheet unchanged. -/
def upload_row (url : String) (name qr picture shelfpic green notes visible : Option String)
    (sheet : List (List String)) : (List (List String)) × UploadOutcome :=
  if !(strTruthy name && strTruthy qr) then (sheet, UploadOutcome.missingRequired)
  else
    match findSheetId url.data with
    | none => (sheet, UploadOutcome.invalidUrl)
    | some _ =>
      let p := normBool picture
      let sp := normBool shelfpic
      let g := normBool green
      let vb := normBool visible
      if !allowedBool p then (sheet, UploadOutcome.validationError "picture")
      else if !allowedBool sp then (sheet, UploadOutcome.validationError "picture by shelf")
      else if !allowedBool g then (sheet, UploadOutcome.validationError "is it green?")
      else if !allowedBool vb then (sheet, UploadOutcome.validationError "VISIBLE/ NOT")
      else (sheet ++ [[name.getD "", qr.getD "", p, sp, g, notes.getD "", vb]],
            UploadOutcome.okUploaded)

/-- C9: validation precedes write.  Whenever a submitted row carries a
yes/no field whose normalised value is neither yes, no nor blank (for
example the value maybe), the operation returns the validation failure
for some field and performs no write: the sheet is returned unchanged.
The required-field and URL hypotheses pin the run past the two earlier
guards, which also perform no write. -/
theorem validation_precedes_write (url : String)
    (name qr picture shelfpic green notes visible : Option String)
    (sheet : List (List String))
    (hname : strTruthy name = true) (hqr : strTruthy qr = true)
    (hurl : (findSheetId url.data).isSome = true)
    (hbad : ¬(allowedBool (normBool picture) = true ∧ allowedBool (normBool shelfpic) = true ∧
              allowedBool (normBool green) = true ∧ allowedBool (normBool visible) = true)) :
    (upload_row url name qr picture shelfpic green notes visible sheet).1 = sheet ∧
    ∃ f, (upload_row url name qr picture shelfpic green notes visible sheet).2 =
      UploadOutcome.validationError f := by
  cases h : findSheetId url.data with
  | none => rw [h] at hurl; exact absurd hurl (by simp)
  | some s =>
    simp only [upload_row, hname, hqr, h, Bool.and_self, Bool.not_true, Bool.false_eq_true,
      if_false]
    by_cases h1 : allowedBool (normBool picture) = true
    · by_cases h2 : allowedBool (normBool shelfpic) = true
      · by_cases h3 : allowedBool (normBool green) = true
        · by_cases h4 : allowedBool (normBool visible) = true
          · exact absurd ⟨h1, h2, h3, h4⟩ hbad
          · simp [h1, h2, h3, h4]
        · simp [h1, h2, h3]
      · simp [h1, h2]
    · simp [h1]

theorem validation_precedes_write_check :
    (upload_row demoUrl (some "w") (some "q") (some "maybe") none none none none
        demoSheet).1 = demoSheet ∧
      ∃ f, (upload_row demoUrl (some "w") (some "q") (some "maybe") none none none none
        demoSheet).2 = UploadOutcome.validationError f :=
  validation_precedes_write demoUrl (some "w") (some "q") (some "maybe") none none none none
    demoSheet (by decide) (by decide) (by decide) (by decide)
